import Mathlib

/-!
Verification of the ESP32-C3 flash storage backend
(`rudelblinken-filesystem/src/storage/esp.rs`).

The Rust module implements a block storage engine over a memory-mapped
flash region (`read`, `write`, `erase`), a small NVS-backed
metadata store (`read_metadata`, `write_metadata`), the constructor
`FlashStorage::new`, and the lazy global singletons managed by
`setup_storage` / `get_filesystem`.

Machine integers (`u32`) are modelled as `Nat` with explicit `% 2 ^ 32`
where the Rust code performs wrapping addition (release-profile
semantics of `address + length`).  Hardware primitives
(`esp_partition_write_raw`, `esp_partition_erase_range`) and the NVS
key-value store are external to the repository; their behaviour is
modelled from the spec (NOR-flash program-AND / erase-to-0xFF
semantics, bounded 256-byte metadata read buffer) and each such
definition is marked accordingly.  Every operation additionally
returns the list of hardware accesses it performed, playing the role
of the instrumented fake the spec asks for.
-/

/-- Number of blocks of the storage, `Storage::BLOCKS` (256). -/
def BLOCKS : Nat := 256

/-- Size of one erase block in bytes, `Storage::BLOCK_SIZE` (4096). -/
def BLOCK_SIZE : Nat := 4096

/-- Total capacity in bytes, `BLOCKS * BLOCK_SIZE`. -/
def capacity : Nat := BLOCKS * BLOCK_SIZE

/-- Modulus of `u32` arithmetic. -/
def U32 : Nat := 2 ^ 32

/-- Modelled from the spec: the error type `StorageError` lives in
`storage/mod.rs`, which is not part of the sources; its variants are
taken from their uses in `esp.rs` (`AddressTooBig`, `SizeTooBig`,
`Other` wrapping a native diagnostic string). -/
inductive StorageError where
  | AddressTooBig
  | SizeTooBig
  | Other (msg : String)
deriving DecidableEq, Repr

/-- Modelled from the spec: the error type `EraseStorageError` lives in
`storage/mod.rs`, which is not part of the sources; its variants are
taken from their uses in `esp.rs`.  The first two are the alignment
errors, `Storage` embeds a `StorageError` (the `From` conversion used
by `.into()`). -/
inductive EraseStorageError where
  | CanOnlyEraseAlongBlockBoundaries
  | CanOnlyEraseInBlockSizedChunks
  | Storage (e : StorageError)
deriving DecidableEq, Repr

/-- A hardware access performed by an operation: a raw flash write, a
flash range erase, or a read through the memory-mapped region. -/
inductive HwOp where
  | writeRaw (address length : Nat)
  | eraseRange (address length : Nat)
  | mmapRead (address length : Nat)
deriving DecidableEq, Repr

/-- State of the NVS metadata namespace backing
`read_metadata`/`write_metadata`.  `entries` is the key-value content
(first match wins on lookup), `lockPoisoned` makes `nvs.lock()` fail,
`getRawFails` / `setRawFails` make the underlying store calls fail. -/
structure NvsState where
  entries : List (String × List Nat)
  lockPoisoned : Bool
  getRawFails : Bool
  setRawFails : Bool

/-- The `FlashStorage` object: `arena` is the byte content visible
through the memory-mapped region (`storage_arena`), `nvs` the metadata
store behind the mutex. -/
structure FlashStorage where
  arena : Nat → Nat
  nvs : NvsState

/-- Modelled from the spec: `esp_partition_write_raw` is an ESP-IDF
primitive, not part of the sources.  Per the spec's NOR-flash
semantics a write can only clear bits 1→0, so programming ANDs the new
byte into the existing one; a range falling outside the storage area
fails with a nonzero error code (`none`). -/
def espPartitionWriteRaw (arena : Nat → Nat) (address : Nat) (data : List Nat) :
    Option (Nat → Nat) :=
  if address + data.length ≤ capacity then
    some (fun i =>
      if address ≤ i ∧ i < address + data.length then
        arena i &&& data.getD (i - address) 0
      else arena i)
  else none

/-- Modelled from the spec: `esp_partition_erase_range` is an ESP-IDF
primitive, not part of the sources.  Erasing sets every byte of the
range to the canonical erased value 0xFF; a range falling outside the
storage area fails with a nonzero error code (`none`). -/
def espPartitionEraseRange (arena : Nat → Nat) (address length : Nat) :
    Option (Nat → Nat) :=
  if address + length ≤ capacity then
    some (fun i => if address ≤ i ∧ i < address + length then 255 else arena i)
  else none

/-- `FlashStorage::read` (esp.rs lines 184-203): bounds checks, then a
borrowed slice over the mapped region.  Returns the result together
with the hardware accesses performed.  The Rust sum `address + length`
is `u32` wrapping addition, hence the `% U32`. -/
def FlashStorage.read (self : FlashStorage) (address length : Nat) :
    Except StorageError (List Nat) × List HwOp :=
  if address > capacity then
    (.error .AddressTooBig, [])
  else if (address + length) % U32 > capacity * 2 then
    (.error .SizeTooBig, [])
  else
    (.ok ((List.range length).map (fun i => self.arena (address + i))),
      [.mmapRead address length])

/-- `FlashStorage::write` (esp.rs lines 205-230): no validation at all;
directly calls `esp_partition_write_raw`, wrapping a failing error code
into `StorageError::Other`.  Returns result, new state and hardware
accesses. -/
def FlashStorage.write (self : FlashStorage) (address : Nat) (data : List Nat) :
    Except StorageError Unit × FlashStorage × List HwOp :=
  match espPartitionWriteRaw self.arena address data with
  | some arena2 =>
    (.ok (), { self with arena := arena2 }, [.writeRaw address data.length])
  | none =>
    (.error (.Other ("ESP_ERR_INVALID_SIZE")), self, [.writeRaw address data.length])

/-- `FlashStorage::erase` (esp.rs lines 232-266): zero length is an
immediate no-op; then alignment checks, then bounds checks against a
single capacity (with `u32` wrapping on `address + length`), then the
hardware erase. -/
def FlashStorage.erase (self : FlashStorage) (address length : Nat) :
    Except EraseStorageError Unit × FlashStorage × List HwOp :=
  if length = 0 then
    (.ok (), self, [])
  else if address % BLOCK_SIZE ≠ 0 then
    (.error .CanOnlyEraseAlongBlockBoundaries, self, [])
  else if length % BLOCK_SIZE ≠ 0 then
    (.error .CanOnlyEraseInBlockSizedChunks, self, [])
  else if address > capacity then
    (.error (.Storage .AddressTooBig), self, [])
  else if (address + length) % U32 > capacity then
    (.error (.Storage .SizeTooBig), self, [])
  else
    match espPartitionEraseRange self.arena address length with
    | some arena2 =>
      (.ok (), { self with arena := arena2 }, [.eraseRange address length])
    | none =>
      (.error (.Storage (.Other ("ESP_FAIL"))), self, [.eraseRange address length])

/-- The `std::io::Error` values produced by the metadata operations:
`ErrorKind::NotFound` for an absent key, `Error::other(msg)` for lock
or store failures. -/
inductive IoError where
  | notFound
  | other (msg : String)
deriving DecidableEq, Repr

/-- `FlashStorage::read_metadata` (esp.rs lines 268-279): lock the
mutex, `get_raw` into a fixed 256-byte buffer, absent key becomes
`NotFound`.  The buffer bound is modelled from the spec (a stored value
longer than 256 bytes makes `get_raw` fail like any other store
failure). -/
def FlashStorage.read_metadata (self : FlashStorage) (key : String) :
    Except IoError (List Nat) :=
  if self.nvs.lockPoisoned then
    .error (.other ("Failed to obtain lock to nvs"))
  else if self.nvs.getRawFails then
    .error (.other ("Failed to read value from nvs"))
  else
    match self.nvs.entries.lookup key with
    | none => .error .notFound
    | some v =>
      if 256 < v.length then .error (.other ("Failed to read value from nvs"))
      else .ok v

/-- `FlashStorage::write_metadata` (esp.rs lines 281-288): lock the
mutex, `set_raw` upserts the blob.  The upsert is modelled from the
spec by prepending the pair; lookups take the first match. -/
def FlashStorage.write_metadata (self : FlashStorage) (key : String) (value : List Nat) :
    Except IoError Unit × FlashStorage :=
  if self.nvs.lockPoisoned then
    (.error (.other ("Failed to obtain lock to nvs")), self)
  else if self.nvs.setRawFails then
    (.error (.other ("Failed to write value to nvs")), self)
  else
    (.ok (), { self with nvs := { self.nvs with entries := (key, value) :: self.nvs.entries } })

/-- Partition descriptor as read from `esp_partition_get`: only the
fields the code inspects (`erase_size`, `size`). -/
structure PartitionDesc where
  eraseSize : Nat
  size : Nat
deriving DecidableEq, Repr

/-- A construction step performed by `FlashStorage::new` /
`setup_storage`: locating the storage area, a call to
`esp_partition_mmap`, taking the default NVS part, opening the
`filesystem1` namespace, and `Filesystem::new`. -/
inductive CtorStep where
  | findStorageArea
  | mmap (offset length : Nat)
  | nvsTake
  | nvsOpen (ns : String)
  | filesystemNew
deriving DecidableEq, Repr

/-- `CreateStorageError` (esp.rs lines 59-77). -/
inductive CreateStorageError where
  | NoPartitionFound
  | FailedToMmapSecrets
  | NoNvsPartitionFound
  | FailedToOpenNvsNamespace
  | EraseSizeDoesNotMatchBlockSize
deriving DecidableEq, Repr

/-- `CONFIG_MMU_PAGE_SIZE` of the ESP32-C3 target. -/
def MMU_PAGE_SIZE : Nat := 65536

/-- The platform environment `FlashStorage::new` runs against: the
storage area found by `esp_partition_find` (if any), success of the
three `esp_partition_mmap` calls, of `EspDefaultNvsPartition::take` and
of `EspNvs::new`, the initial flash contents seen through the mapping,
and the initial NVS namespace contents. -/
structure Env where
  found : Option PartitionDesc
  mmapFirstOk : Bool
  mmapRestOk : Bool
  mmapWholeOk : Bool
  nvsTakeOk : Bool
  nvsOpenOk : Bool
  flash : Nat → Nat
  nvsEntries : List (String × List Nat)

/-- `FlashStorage::new` (esp.rs lines 83-177): find the storage area,
validate its erase size against `BLOCK_SIZE`, perform the three mmap
calls, take the NVS part and open the `filesystem1` namespace.
Returns the result together with the construction steps performed. -/
def FlashStorage.new (env : Env) :
    Except CreateStorageError FlashStorage × List CtorStep :=
  match env.found with
  | none => (.error .NoPartitionFound, [.findStorageArea])
  | some p =>
    if p.eraseSize ≠ BLOCK_SIZE then
      (.error .EraseSizeDoesNotMatchBlockSize, [.findStorageArea])
    else if !env.mmapFirstOk then
      (.error .FailedToMmapSecrets, [.findStorageArea, .mmap 0 MMU_PAGE_SIZE])
    else if !env.mmapRestOk then
      (.error .FailedToMmapSecrets,
        [.findStorageArea, .mmap 0 MMU_PAGE_SIZE,
          .mmap MMU_PAGE_SIZE (p.size - MMU_PAGE_SIZE)])
    else if !env.mmapWholeOk then
      (.error .FailedToMmapSecrets,
        [.findStorageArea, .mmap 0 MMU_PAGE_SIZE,
          .mmap MMU_PAGE_SIZE (p.size - MMU_PAGE_SIZE), .mmap 0 p.size])
    else if !env.nvsTakeOk then
      (.error .NoNvsPartitionFound,
        [.findStorageArea, .mmap 0 MMU_PAGE_SIZE,
          .mmap MMU_PAGE_SIZE (p.size - MMU_PAGE_SIZE), .mmap 0 p.size, .nvsTake])
    else if !env.nvsOpenOk then
      (.error .FailedToOpenNvsNamespace,
        [.findStorageArea, .mmap 0 MMU_PAGE_SIZE,
          .mmap MMU_PAGE_SIZE (p.size - MMU_PAGE_SIZE), .mmap 0 p.size, .nvsTake,
          .nvsOpen ("filesystem1")])
    else
      (.ok { arena := env.flash,
             nvs := { entries := env.nvsEntries, lockPoisoned := false,
                      getRawFails := false, setRawFails := false } },
        [.findStorageArea, .mmap 0 MMU_PAGE_SIZE,
          .mmap MMU_PAGE_SIZE (p.size - MMU_PAGE_SIZE), .mmap 0 p.size, .nvsTake,
          .nvsOpen ("filesystem1")])

/-- The overlay `Filesystem` built over a `FlashStorage` reference; its
block-scanning logic is out of scope, only its identity matters here. -/
structure Filesystem where
  storage : FlashStorage

/-- `Filesystem::new` takes the storage reference. -/
def Filesystem.new (storage : FlashStorage) : Filesystem := ⟨storage⟩

/-- The two global singletons `STORAGE_SINGLETON` and
`FILESYSTEM_SINGLETON` (esp.rs lines 291-292), both `None` at start. -/
structure Globals where
  storageSingleton : Option FlashStorage
  filesystemSingleton : Option Filesystem

/-- The initial global state: both singletons unset. -/
def Globals.init : Globals := ⟨none, none⟩

/-- `SetupStorageError` (esp.rs lines 295-303). -/
inductive SetupStorageError where
  | AlreadyInitialized
  | CreateStorageError (e : CreateStorageError)
deriving Repr

/-- `setup_storage` (esp.rs lines 306-315): construct the storage; on
failure the `?` operator returns before either singleton is assigned;
on success both singletons are set, the filesystem over the storage. -/
def setup_storage (env : Env) (g : Globals) :
    Except SetupStorageError Unit × Globals × List CtorStep :=
  match FlashStorage.new env with
  | (.error e, steps) => (.error (.CreateStorageError e), g, steps)
  | (.ok st, steps) =>
    (.ok (),
      { storageSingleton := some st,
        filesystemSingleton := some (Filesystem.new st) },
      steps ++ [.filesystemNew])

/-- `get_filesystem` (esp.rs lines 318-325): if the filesystem
singleton is unset, run `setup_storage`, then return the singleton.
The final arm models the `unwrap` (unreachable after a successful
setup). -/
def get_filesystem (env : Env) (g : Globals) :
    Except SetupStorageError Filesystem × Globals × List CtorStep :=
  match g.filesystemSingleton with
  | some fs => (.ok fs, g, [])
  | none =>
    match setup_storage env g with
    | (.error e, g2, steps) => (.error e, g2, steps)
    | (.ok _, g2, steps) =>
      match g2.filesystemSingleton with
      | some fs => (.ok fs, g2, steps)
      | none => (.error .AlreadyInitialized, g2, steps)

/-- A flash storage in the fully erased state with an empty, healthy
metadata namespace; used as concrete input for witnesses and
counterexamples. -/
def erasedStorage : FlashStorage :=
  { arena := fun _ => 255,
    nvs := { entries := [], lockPoisoned := false,
             getRawFails := false, setRawFails := false } }

/-- An environment in which every construction step succeeds and the
storage area has the compiled block size as erase size. -/
def goodEnv : Env :=
  { found := some { eraseSize := 4096, size := capacity },
    mmapFirstOk := true, mmapRestOk := true, mmapWholeOk := true,
    nvsTakeOk := true, nvsOpenOk := true,
    flash := fun _ => 255, nvsEntries := [] }

/-- Programming an erased byte (0xFF) leaves exactly the data byte:
`255 &&& x = x` for a byte value `x`. -/
theorem and_255_of_lt (x : Nat) (h : x < 256) : 255 &&& x = x := by
  have h1 : (255 : Nat) = 2 ^ 8 - 1 := by decide
  apply Nat.eq_of_testBit_eq
  intro i
  rw [Nat.testBit_land]
  by_cases hi : i < 8
  · rw [h1, Nat.testBit_two_pow_sub_one]
    simp [hi]
  · have : x.testBit i = false := by
      apply Nat.testBit_eq_false_of_lt
      calc x < 256 := h
        _ ≤ 2 ^ i := by
          have : 8 ≤ i := Nat.le_of_not_lt hi
          calc (256 : Nat) = 2 ^ 8 := by decide
            _ ≤ 2 ^ i := Nat.pow_le_pow_right (by decide) this
    simp [this]

/-- Claim C4: for every address, including misaligned and out-of-range
ones, `erase(address, 0)` returns success immediately, performs no
hardware access and leaves the storage unchanged. -/
theorem erase_zero_length_is_noop (s : FlashStorage) (address : Nat) :
    FlashStorage.erase s address 0 = (.ok (), s, []) := rfl

/-- Claim C3: every `erase(address, length)` call with `length ≠ 0`
where `address` or `length` is not a multiple of `BLOCK_SIZE` returns
one of the two alignment errors, performs zero hardware erase calls
and leaves the storage unchanged. -/
theorem erase_misaligned_alignment_error (s : FlashStorage) (address length : Nat)
    (hlen : length ≠ 0)
    (halign : address % BLOCK_SIZE ≠ 0 ∨ length % BLOCK_SIZE ≠ 0) :
    ((FlashStorage.erase s address length).1 = .error .CanOnlyEraseAlongBlockBoundaries ∨
      (FlashStorage.erase s address length).1 = .error .CanOnlyEraseInBlockSizedChunks) ∧
    (FlashStorage.erase s address length).2.2 = [] ∧
    (FlashStorage.erase s address length).2.1 = s := by
  unfold FlashStorage.erase
  rcases halign with h | h
  · simp [hlen, h]
  · by_cases ha : address % BLOCK_SIZE = 0
    · simp [hlen, ha, h]
    · simp [hlen, ha]

/-- Witness for C3 at the concrete call `erase(1, 1)`. -/
theorem erase_misaligned_alignment_error_witness :
    ((FlashStorage.erase erasedStorage 1 1).1 = .error .CanOnlyEraseAlongBlockBoundaries ∨
      (FlashStorage.erase erasedStorage 1 1).1 = .error .CanOnlyEraseInBlockSizedChunks) ∧
    (FlashStorage.erase erasedStorage 1 1).2.2 = [] ∧
    (FlashStorage.erase erasedStorage 1 1).2.1 = erasedStorage :=
  erase_misaligned_alignment_error erasedStorage 1 1 (by decide) (.inl (by decide))

/-- Counterexample to C1 as stated: the call `write(capacity, [0])`
has a requested range exceeding the capacity, yet it performs a raw
hardware write and returns a `HardwareError`-style `Other` error, not a
bounds error. -/
theorem write_out_of_range_counterexample :
    (FlashStorage.write erasedStorage capacity [0]).2.2 = [.writeRaw capacity 1] ∧
    (FlashStorage.write erasedStorage capacity [0]).1 =
      .error (.Other ("ESP_ERR_INVALID_SIZE")) ∧
    capacity < capacity + 1 :=
  ⟨rfl, rfl, by omega⟩

/-- Claim C1 (amended): for `erase` with nonzero block-aligned
arguments, a range whose start exceeds the capacity or whose wrapped
end `(address + length) % 2^32` exceeds the capacity yields a bounds
error with no hardware access and no state change; for `read`, a
request with `address > capacity` or wrapped end beyond `2 * capacity`
yields a bounds error with no hardware access; `write` performs no
bounds validation and always issues the raw hardware write. -/
theorem bounds_errors_without_hardware_access (s : FlashStorage)
    (address length : Nat) (data : List Nat) :
    (length ≠ 0 → address % BLOCK_SIZE = 0 → length % BLOCK_SIZE = 0 →
      capacity < address ∨ capacity < (address + length) % U32 →
      ((FlashStorage.erase s address length).1 = .error (.Storage .AddressTooBig) ∨
        (FlashStorage.erase s address length).1 = .error (.Storage .SizeTooBig)) ∧
      (FlashStorage.erase s address length).2.2 = [] ∧
      (FlashStorage.erase s address length).2.1 = s) ∧
    (capacity < address ∨ 2 * capacity < (address + length) % U32 →
      ((FlashStorage.read s address length).1 = .error .AddressTooBig ∨
        (FlashStorage.read s address length).1 = .error .SizeTooBig) ∧
      (FlashStorage.read s address length).2 = []) ∧
    (FlashStorage.write s address data).2.2 = [.writeRaw address data.length] := by
  refine ⟨?_, ?_, ?_⟩
  · intro hlen ha hl hbound
    unfold FlashStorage.erase
    by_cases hbig : capacity < address
    · simp [hlen, ha, hl, hbig]
    · have hsz : capacity < (address + length) % U32 := by
        rcases hbound with h | h
        · exact absurd h hbig
        · exact h
      simp [hlen, ha, hl, hbig, hsz]
  · intro hbound
    unfold FlashStorage.read
    by_cases hbig : capacity < address
    · simp [hbig]
    · have hsz : capacity * 2 < (address + length) % U32 := by
        rcases hbound with h | h
        · exact absurd h hbig
        · omega
      simp [hbig, hsz]
  · unfold FlashStorage.write
    cases hw : espPartitionWriteRaw s.arena address data <;> simp

/-- Witness for C1 (amended) at the concrete calls
`erase(2*capacity, BLOCK_SIZE)`, `read(2*capacity + 1, 0)` and
`write(capacity, [0])`. -/
theorem bounds_errors_without_hardware_access_witness :
    (((FlashStorage.erase erasedStorage (2 * capacity) BLOCK_SIZE).1 =
        .error (.Storage .AddressTooBig) ∨
      (FlashStorage.erase erasedStorage (2 * capacity) BLOCK_SIZE).1 =
        .error (.Storage .SizeTooBig)) ∧
      (FlashStorage.erase erasedStorage (2 * capacity) BLOCK_SIZE).2.2 = [] ∧
      (FlashStorage.erase erasedStorage (2 * capacity) BLOCK_SIZE).2.1 = erasedStorage) ∧
    (((FlashStorage.read erasedStorage (2 * capacity + 1) 0).1 = .error .AddressTooBig ∨
      (FlashStorage.read erasedStorage (2 * capacity + 1) 0).1 = .error .SizeTooBig) ∧
      (FlashStorage.read erasedStorage (2 * capacity + 1) 0).2 = []) ∧
    (FlashStorage.write erasedStorage capacity [0]).2.2 = [.writeRaw capacity 1] := by
  have h1 := bounds_errors_without_hardware_access erasedStorage (2 * capacity) BLOCK_SIZE [0]
  have h2 := bounds_errors_without_hardware_access erasedStorage (2 * capacity + 1) 0 [0]
  have h3 := bounds_errors_without_hardware_access erasedStorage capacity 1 [0]
  exact ⟨h1.1 (by decide) (by decide) (by decide) (.inl (by decide)),
    h2.2.1 (.inl (by decide)), h3.2.2⟩

/-- Counterexample to C2 as stated: at `address = 1`,
`length = 2^32 - 1` the exact sum `address + length = 2^32` exceeds
`2 * capacity`, so the claim demands `SizeTooBig`; but the code adds
with `u32` wrapping, the wrapped sum is `0`, and the call succeeds and
returns a view. -/
theorem read_exact_arithmetic_counterexample :
    (FlashStorage.read erasedStorage 1 (U32 - 1)).1.isOk = true ∧
    2 * capacity < 1 + (U32 - 1) :=
  ⟨rfl, by decide⟩

/-- Claim C2 (amended): `read(address, length)` returns a byte view
over mapped memory exactly when `address ≤ capacity` and the wrapped
sum `(address + length) % 2^32` is at most `2 * capacity`; it returns
`AddressTooBig` when `address > capacity` and `SizeTooBig` when
`address ≤ capacity` but the wrapped sum exceeds `2 * capacity`; the
sum is computed with `u32` wrapping, not exact, arithmetic; `erase` is
bounded by a single capacity. -/
theorem read_admits_doubled_wrapped_bound (s : FlashStorage) (address length : Nat) :
    ((FlashStorage.read s address length).1.isOk = true ↔
      address ≤ capacity ∧ (address + length) % U32 ≤ 2 * capacity) ∧
    (capacity < address →
      (FlashStorage.read s address length).1 = .error .AddressTooBig) ∧
    (address ≤ capacity → 2 * capacity < (address + length) % U32 →
      (FlashStorage.read s address length).1 = .error .SizeTooBig) ∧
    (address ≤ capacity → (address + length) % U32 ≤ 2 * capacity →
      (FlashStorage.read s address length).1 =
        .ok ((List.range length).map (fun i => s.arena (address + i)))) ∧
    (length ≠ 0 → address % BLOCK_SIZE = 0 → length % BLOCK_SIZE = 0 →
      address ≤ capacity → capacity < (address + length) % U32 →
      (FlashStorage.erase s address length).1 = .error (.Storage .SizeTooBig)) := by
  refine ⟨?_, ?_, ?_, ?_, ?_⟩
  · unfold FlashStorage.read
    by_cases hbig : capacity < address
    · simp [hbig, Except.isOk, Except.toBool]
    · by_cases hsz : capacity * 2 < (address + length) % U32
      · simp [hbig, hsz, Except.isOk, Except.toBool]
        try omega
      · simp [hbig, hsz, Except.isOk, Except.toBool]
        try omega
  · intro h
    unfold FlashStorage.read
    rw [if_pos (by omega)]
  · intro h1 h2
    unfold FlashStorage.read
    rw [if_neg (by omega), if_pos (by omega)]
  · intro h1 h2
    unfold FlashStorage.read
    rw [if_neg (by omega), if_neg (by omega)]
  · intro hlen ha hl h1 h2
    unfold FlashStorage.erase
    simp [hlen, ha, hl]
    rw [if_neg (by omega), if_pos (by omega)]

/-- Witness for C2 (amended) at the calls `read(capacity + 1, 0)`,
`read(0, 2*capacity + 1)`, `read(0, 2)` and `erase(0, 2*capacity)`. -/
theorem read_admits_doubled_wrapped_bound_witness :
    (FlashStorage.read erasedStorage (capacity + 1) 0).1 = .error .AddressTooBig ∧
    (FlashStorage.read erasedStorage 0 (2 * capacity + 1)).1 = .error .SizeTooBig ∧
    (FlashStorage.read erasedStorage 0 2).1 = .ok [255, 255] ∧
    (FlashStorage.erase erasedStorage 0 (2 * capacity)).1 = .error (.Storage .SizeTooBig) := by
  have h1 := (read_admits_doubled_wrapped_bound erasedStorage (capacity + 1) 0).2.1 (by decide)
  have h2 := (read_admits_doubled_wrapped_bound erasedStorage 0 (2 * capacity + 1)).2.2.1
    (by decide) (by decide)
  have h3 := (read_admits_doubled_wrapped_bound erasedStorage 0 2).2.2.2.1
    (by decide) (by decide)
  have h4 := (read_admits_doubled_wrapped_bound erasedStorage 0 (2 * capacity)).2.2.2.2
    (by decide) (by decide) (by decide) (by decide) (by decide)
  refine ⟨h1, h2, ?_, h4⟩
  rw [h3]
  rfl

/-- Claim C5: for a range within capacity whose bytes are in the
erased state (0xFF), `write(address, data)` succeeds and an immediate
`read(address, data.length)` over the same range returns exactly
`data` (programming ANDs bits into erased bytes, so the round-trip is
exact). -/
theorem write_then_read_roundtrip (s : FlashStorage) (address : Nat) (data : List Nat)
    (hcap : address + data.length ≤ capacity)
    (herased : ∀ i, i < data.length → s.arena (address + i) = 255)
    (hbytes : ∀ b ∈ data, b < 256) :
    (FlashStorage.write s address data).1 = .ok () ∧
    (FlashStorage.read (FlashStorage.write s address data).2.1 address data.length).1 =
      .ok data := by
  have hw : espPartitionWriteRaw s.arena address data =
      some (fun i =>
        if address ≤ i ∧ i < address + data.length then
          s.arena i &&& data.getD (i - address) 0
        else s.arena i) := by
    unfold espPartitionWriteRaw
    rw [if_pos hcap]
  have hwrite : FlashStorage.write s address data =
      (.ok (),
        { s with arena := fun i =>
            if address ≤ i ∧ i < address + data.length then
              s.arena i &&& data.getD (i - address) 0
            else s.arena i },
        [.writeRaw address data.length]) := by
    unfold FlashStorage.write
    rw [hw]
  refine ⟨by rw [hwrite], ?_⟩
  rw [hwrite]
  have hcaplt : capacity < U32 := by decide
  have hmod : (address + data.length) % U32 = address + data.length :=
    Nat.mod_eq_of_lt (by omega)
  unfold FlashStorage.read
  rw [if_neg (by omega), if_neg (by omega)]
  simp only [Except.ok.injEq]
  apply List.ext_getElem
  · simp
  · intro i h1 h2
    simp only [List.getElem_map, List.getElem_range]
    have hrange : address ≤ address + i ∧ address + i < address + data.length := by
      simp at h1
      omega
    rw [if_pos hrange, Nat.add_sub_cancel_left]
    have hi : i < data.length := by simpa using h2
    rw [herased i hi, List.getD_eq_getElem data 0 hi]
    exact and_255_of_lt _ (hbytes _ (List.getElem_mem hi))

/-- Witness for C5: writing `[1, 2, 3]` at address 0 of the fully
erased storage and reading 3 bytes back yields `[1, 2, 3]`. -/
theorem write_then_read_roundtrip_witness :
    (FlashStorage.write erasedStorage 0 [1, 2, 3]).1 = .ok () ∧
    (FlashStorage.read (FlashStorage.write erasedStorage 0 [1, 2, 3]).2.1 0 3).1 =
      .ok [1, 2, 3] := by
  have h := write_then_read_roundtrip erasedStorage 0 [1, 2, 3] (by decide)
    (fun i _ => rfl) (by decide)
  simpa using h

/-- An environment whose storage area reports an erase size different
from the compiled block size. -/
def mismatchedEnv : Env :=
  { goodEnv with found := some { eraseSize := 1, size := capacity } }

/-- Claim C6: when the resolved storage area's erase size differs from
the compiled `BLOCK_SIZE`, `FlashStorage::new` returns the
erase-size-mismatch error right after the lookup, before any memory
mapping or later construction step, and produces no storage instance. -/
theorem new_rejects_erase_size_mismatch (env : Env) (p : PartitionDesc)
    (hfound : env.found = some p) (hmismatch : p.eraseSize ≠ BLOCK_SIZE) :
    FlashStorage.new env =
      (.error .EraseSizeDoesNotMatchBlockSize, [.findStorageArea]) ∧
    (∀ o l, CtorStep.mmap o l ∉ (FlashStorage.new env).2) ∧
    (∀ st steps, FlashStorage.new env ≠ (.ok st, steps)) := by
  have h1 : FlashStorage.new env =
      (.error .EraseSizeDoesNotMatchBlockSize, [.findStorageArea]) := by
    unfold FlashStorage.new
    rw [hfound]
    simp [hmismatch]
  refine ⟨h1, ?_, ?_⟩
  · intro o l hmem
    rw [h1] at hmem
    simp at hmem
  · intro st steps heq
    rw [h1] at heq
    simp at heq

/-- Witness for C6 at a concrete environment whose storage area has
erase size 1. -/
theorem new_rejects_erase_size_mismatch_witness :
    FlashStorage.new mismatchedEnv =
      (.error .EraseSizeDoesNotMatchBlockSize, [.findStorageArea]) ∧
    (∀ o l, CtorStep.mmap o l ∉ (FlashStorage.new mismatchedEnv).2) ∧
    (∀ st steps, FlashStorage.new mismatchedEnv ≠ (.ok st, steps)) :=
  new_rejects_erase_size_mismatch mismatchedEnv { eraseSize := 1, size := capacity }
    rfl (by decide)

/-- Claim C7: with a healthy lock and store, `read_metadata` on a key
absent from the namespace returns `NotFound`, a value distinct from
every `other`-style I/O error used for lock or store failures. -/
theorem read_metadata_absent_key_notfound (s : FlashStorage) (key : String)
    (hlock : s.nvs.lockPoisoned = false) (hget : s.nvs.getRawFails = false)
    (habsent : s.nvs.entries.lookup key = none) :
    FlashStorage.read_metadata s key = .error .notFound ∧
    (∀ msg, (IoError.notFound : IoError) ≠ .other msg) := by
  constructor
  · unfold FlashStorage.read_metadata
    rw [hlock, hget, habsent]
    simp
  · intro msg h
    cases h

/-- Witness for C7: reading the key `missing` from an empty, healthy
namespace. -/
theorem read_metadata_absent_key_notfound_witness :
    FlashStorage.read_metadata erasedStorage ("missing") = .error .notFound ∧
    (∀ msg, (IoError.notFound : IoError) ≠ .other msg) :=
  read_metadata_absent_key_notfound erasedStorage ("missing") rfl rfl rfl

/-- Claim C8: with a healthy lock and store, for every key and every
value fitting the fixed 256-byte read buffer, a successful
`write_metadata(key, value)` followed by `read_metadata(key)` returns
exactly `value`. -/
theorem write_then_read_metadata (s : FlashStorage) (key : String) (value : List Nat)
    (hlock : s.nvs.lockPoisoned = false) (hget : s.nvs.getRawFails = false)
    (hset : s.nvs.setRawFails = false) (hsize : value.length ≤ 256) :
    (FlashStorage.write_metadata s key value).1 = .ok () ∧
    FlashStorage.read_metadata (FlashStorage.write_metadata s key value).2 key =
      .ok value := by
  have hw : FlashStorage.write_metadata s key value =
      (.ok (), { s with nvs := { s.nvs with entries := (key, value) :: s.nvs.entries } }) := by
    unfold FlashStorage.write_metadata
    rw [hlock, hset]
    simp
  refine ⟨by rw [hw], ?_⟩
  rw [hw]
  unfold FlashStorage.read_metadata
  simp only [hlock, hget]
  rw [List.lookup_cons_self]
  simp [Nat.not_lt.mpr hsize]

/-- Witness for C8: writing `[7, 8]` under key `k` into the empty
healthy namespace and reading it back. -/
theorem write_then_read_metadata_witness :
    (FlashStorage.write_metadata erasedStorage ("k") [7, 8]).1 = .ok () ∧
    FlashStorage.read_metadata (FlashStorage.write_metadata erasedStorage ("k") [7, 8]).2
      ("k") = .ok [7, 8] :=
  write_then_read_metadata erasedStorage ("k") [7, 8] rfl rfl rfl (by decide)

/-- If the filesystem singleton is already set, `get_filesystem`
returns it unchanged with no construction steps. -/
theorem get_filesystem_of_cached (env : Env) (g : Globals) (fs : Filesystem)
    (h : g.filesystemSingleton = some fs) :
    get_filesystem env g = (.ok fs, g, []) := by
  unfold get_filesystem
  rw [h]

/-- Whenever `get_filesystem` succeeds, the resulting globals hold the
returned filesystem in the singleton. -/
theorem get_filesystem_ok_sets_singleton (env : Env) (g : Globals) (fs : Filesystem)
    (hok : (get_filesystem env g).1 = .ok fs) :
    (get_filesystem env g).2.1.filesystemSingleton = some fs := by
  unfold get_filesystem setup_storage at *
  cases hg : g.filesystemSingleton with
  | some fs0 =>
    rw [hg] at hok
    have hok2 : Except.ok fs0 = Except.ok fs := hok
    cases hok2
    exact hg
  | none =>
    rw [hg] at hok
    cases hn : FlashStorage.new env with
    | mk r steps =>
      rw [hn] at hok
      cases r with
      | error e =>
        have hok2 : (Except.error (SetupStorageError.CreateStorageError e) :
            Except SetupStorageError Filesystem) = Except.ok fs := hok
        cases hok2
      | ok st =>
        have hok2 : Except.ok (Filesystem.new st) = Except.ok fs := hok
        cases hok2
        rfl

/-- Claim C9: once one `get_filesystem` invocation has succeeded,
every later sequential invocation — under any platform environment —
returns the same already-built instance, leaves the globals untouched
and repeats no construction step. -/
theorem get_filesystem_reuses_instance (env1 : Env) (g : Globals) (fs : Filesystem)
    (hok : (get_filesystem env1 g).1 = .ok fs) :
    ∀ env2, get_filesystem env2 (get_filesystem env1 g).2.1 =
      (.ok fs, (get_filesystem env1 g).2.1, []) := by
  intro env2
  exact get_filesystem_of_cached env2 (get_filesystem env1 g).2.1 fs
    (get_filesystem_ok_sets_singleton env1 g fs hok)

/-- Witness for C9: a first successful call under `goodEnv` followed by
a second call. -/
theorem get_filesystem_reuses_instance_witness :
    get_filesystem goodEnv (get_filesystem goodEnv Globals.init).2.1 =
      (.ok (Filesystem.new erasedStorage), (get_filesystem goodEnv Globals.init).2.1, []) :=
  get_filesystem_reuses_instance goodEnv Globals.init (Filesystem.new erasedStorage)
    rfl goodEnv

/-- The construction steps of a fully successful `FlashStorage::new`
under `goodEnv`. -/
def goodSteps : List CtorStep :=
  [.findStorageArea, .mmap 0 MMU_PAGE_SIZE,
    .mmap MMU_PAGE_SIZE (capacity - MMU_PAGE_SIZE), .mmap 0 capacity, .nvsTake,
    .nvsOpen ("filesystem1")]

/-- An environment in which no storage area is found at all. -/
def noPartitionEnv : Env := { goodEnv with found := none }

/-- Claim C10: if the globals are unset and `FlashStorage::new` fails,
`get_filesystem` reports the construction error and both singletons
stay unset; a later call in an environment where construction succeeds
then performs the full construction from scratch on the clean state. -/
theorem failed_setup_leaves_globals_unset (env : Env) (g : Globals)
    (e : CreateStorageError)
    (hs : g.storageSingleton = none) (hf : g.filesystemSingleton = none)
    (herr : (FlashStorage.new env).1 = .error e) :
    (get_filesystem env g).1 = .error (.CreateStorageError e) ∧
    (get_filesystem env g).2.1.storageSingleton = none ∧
    (get_filesystem env g).2.1.filesystemSingleton = none ∧
    (∀ env2 st steps2, FlashStorage.new env2 = (.ok st, steps2) →
      get_filesystem env2 (get_filesystem env g).2.1 =
        (.ok (Filesystem.new st),
          { storageSingleton := some st,
            filesystemSingleton := some (Filesystem.new st) },
          steps2 ++ [.filesystemNew])) := by
  have hget : get_filesystem env g =
      (.error (.CreateStorageError e), g, (FlashStorage.new env).2) := by
    unfold get_filesystem setup_storage
    rw [hf]
    cases hn : FlashStorage.new env with
    | mk r steps =>
      rw [hn] at herr
      cases r with
      | error e2 =>
        cases herr
        rfl
      | ok st => cases herr
  refine ⟨by rw [hget], by rw [hget]; exact hs, by rw [hget]; exact hf, ?_⟩
  intro env2 st steps2 hok
  rw [hget]
  unfold get_filesystem setup_storage
  rw [hf, hok]

/-- Witness for C10: a failing first call (no storage area found) on
the initial globals, then a successful retry under `goodEnv`. -/
theorem failed_setup_leaves_globals_unset_witness :
    (get_filesystem noPartitionEnv Globals.init).1 =
      .error (.CreateStorageError .NoPartitionFound) ∧
    (get_filesystem noPartitionEnv Globals.init).2.1.storageSingleton = none ∧
    (get_filesystem noPartitionEnv Globals.init).2.1.filesystemSingleton = none ∧
    get_filesystem goodEnv (get_filesystem noPartitionEnv Globals.init).2.1 =
      (.ok (Filesystem.new erasedStorage),
        { storageSingleton := some erasedStorage,
          filesystemSingleton := some (Filesystem.new erasedStorage) },
        goodSteps ++ [.filesystemNew]) := by
  have h := failed_setup_leaves_globals_unset noPartitionEnv Globals.init
    .NoPartitionFound rfl rfl rfl
  exact ⟨h.1, h.2.1, h.2.2.1, h.2.2.2 goodEnv erasedStorage goodSteps rfl⟩
